import Mathlib

/-!
Verification of the dusk-api plugin substrate

A shallow embedding of the dusk-api Rust crate, covering:

* the error kinds of `src/error.rs`;
* the concurrent object control block of `src/objects.rs`
  (`ObjCore::incref`/`decref`/`try_lock`/`try_lock_ex`/`unlock`,
  `Clone for Object`, `Drop for Object`), modelled as pure state
  transformers on the atomic words — in the sequential model every
  compare-and-swap succeeds, since the value compared against was just
  loaded and no interference occurs in between;
* version comparison from `src/version.rs`;
* the loader handshake of `src/registration.rs`
  (`FreightProxy::load_from_declaration`), with the registration
  callback modelled as an event trace;
* catalog flattening from `src/freights.rs`
  (`Freight::get_module_list`, `Freight::get_function_list`).

Machine integers are modelled as `Nat` with explicit wrap-around
`% 2^64` where the Rust code relies on wrapping (`fetch_add`,
`fetch_sub`); the 64-bit target constants `usize::MAX + 1` and
`isize::MAX` are fixed explicitly.
-/

namespace DuskApi

/-- The error kinds of `src/error.rs` (`enum Error`).  `LoadingError`
carries a `libloading::Error` in the source; its payload is modelled
as an opaque token because no claim inspects it. -/
inductive Error where
  | LoadingError (diag : Nat)
  | ImportError (msg : String)
  | TypeError (msg : String)
  | ValueError (msg : String)
  | IndexError (msg : String)
  | OverflowError (msg : String)
  | NotImplementedError (msg : String)
  | RuntimeError (msg : String)
  deriving Repr, DecidableEq

/-- The value `usize::MAX + 1` on the 64-bit targets the crate is built for:
arithmetic on the atomic words wraps modulo this. -/
def USIZE_MOD : Nat := 2 ^ 64

/-- The value `isize::MAX as usize` on 64-bit targets, the saturation cap used by
`ObjCore::incref` and `ObjCore::try_lock`. -/
def ISIZE_MAX : Nat := 2 ^ 63 - 1

/-!
Control block (`ObjCore`, src/objects.rs)

`ObjCore` holds two atomic words, the reference count `rc` and the
lock word `lck`.  Each operation is embedded as a function from the
word it reads to the pair (returned `Result`, new value of the word).
-/

/-- Embedding of `ObjCore::incref` (src/objects.rs:420-436): `fetch_add(1, Relaxed)`
first, then report `OverflowError` when the *pre*-increment value was
at or above `isize::MAX`.  Returns (result, new counter value). -/
def incref (rc : Nat) : Except Error Nat × Nat :=
  let old_rc := rc
  let new_rc := (rc + 1) % USIZE_MOD
  if old_rc ≥ ISIZE_MAX then
    (Except.error (Error.OverflowError "Reference counter overflow"), new_rc)
  else
    (Except.ok old_rc, new_rc)

/-- Embedding of `ObjCore::decref` (src/objects.rs:438-448): `fetch_sub(1, Release)`,
always `Ok(old)`.  Returns (result, new counter value). -/
def decref (rc : Nat) : Except Error Nat × Nat :=
  let old_rc := rc
  let new_rc := (rc + (USIZE_MOD - 1)) % USIZE_MOD
  (Except.ok old_rc, new_rc)

/-- Embedding of `ObjCore::try_lock` (src/objects.rs:474-510): load the lock word;
error with `OverflowError` at or above `isize::MAX`; report failure
(`Ok(false)`) at exactly 1; error with `RuntimeError` on any other odd
value; otherwise compare-and-swap to the old value plus 2.  In the
sequential model the compare-and-swap succeeds.  Returns
(result, new lock word). -/
def tryLock (lck : Nat) : Except Error Bool × Nat :=
  if lck ≥ ISIZE_MAX then
    (Except.error (Error.OverflowError "Lock counter overflow"), lck)
  else if lck = 1 then
    (Except.ok false, lck)
  else if lck % 2 ≠ 0 then
    (Except.error (Error.RuntimeError "Invalid lock value"), lck)
  else
    (Except.ok true, lck + 2)

/-- Embedding of `ObjCore::try_lock_ex` (src/objects.rs:512-530): a single
compare-and-swap from 0 to 1; `Ok(true)` when the word was 0 and the
swap happened, `Ok(false)` otherwise, the word left unchanged. -/
def tryLockEx (lck : Nat) : Except Error Bool × Nat :=
  if lck = 0 then
    (Except.ok true, 1)
  else
    (Except.ok false, lck)

/-- Embedding of `ObjCore::unlock` (src/objects.rs:559-596): load the lock word;
`RuntimeError` at 0 (already unlocked); subtract 1 at exactly 1;
subtract 2 at any other even value; `RuntimeError` on any other odd
value.  In the sequential model the compare-and-swap succeeds.
Returns (result, new lock word). -/
def unlock (lck : Nat) : Except Error Unit × Nat :=
  if lck = 0 then
    (Except.error (Error.RuntimeError "Trying to unlock an unlocked mutex lock"), lck)
  else if lck = 1 then
    (Except.ok (), lck - 1)
  else if lck % 2 = 0 then
    (Except.ok (), lck - 2)
  else
    (Except.error (Error.RuntimeError "Invalid lock value"), lck)

/-!
Object handles (src/objects.rs)

`Object` owns a raw non-null pointer to the boxed container, a static
type descriptor pointer and flags.  The two pointers are modelled as
opaque tokens; the container's embedded control block is threaded
separately as the `rc` word, since `dk_incref`/`dk_decref` on the
container delegate directly to `ObjCore::incref`/`ObjCore::decref`
(src/stdtypes.rs:64-77).
-/

/-- The `Object` wrapper (src/objects.rs:47-52): `data` is the raw
container pointer, `data_type` the static type-descriptor pointer,
`flags` the `u32` flag word. -/
structure Object where
  data : Nat
  data_type : Nat
  flags : Nat
  deriving Repr, DecidableEq

/-- Embedding of `Clone for Object` (src/objects.rs:599-616):
`inner.dk_incref().unwrap()` — on an `Err` from `incref` the `unwrap`
panics, modelled as `none`; otherwise the clone is a second handle
with the same `data`, `data_type` and `flags`.  Returns the clone and
the new reference count. -/
def cloneObject (o : Object) (rc : Nat) : Option (Object × Nat) :=
  match incref rc with
  | (Except.ok _, rc2) =>
      some ({ data := o.data, data_type := o.data_type, flags := o.flags }, rc2)
  | (Except.error _, _) => none

/-- Embedding of `Drop for Object` (src/objects.rs:618-632):
`inner.dk_decref().unwrap()`; when the pre-decrement count was not 1
the container is left intact, otherwise an acquire fence is issued and
the container is freed.  Returns (new count, whether it was freed);
`none` models the panic of `unwrap` on an `Err`, which `decref` never
produces. -/
def dropObject (rc : Nat) : Option (Nat × Bool) :=
  match decref rc with
  | (Except.ok old_rc, rc2) => some (rc2, old_rc == 1)
  | (Except.error _, _) => none

/-- Running `N` successive `Clone for Object` calls starting from reference
count `rc`; `none` when any clone panics on refcount overflow. -/
def cloneRcN : Nat → Nat → Option Nat
  | 0, rc => some rc
  | n + 1, rc =>
      match incref rc with
      | (Except.ok _, rc2) => cloneRcN n rc2
      | (Except.error _, _) => none

/-- Running `k` successive `Drop for Object` calls starting from reference
count `rc`; returns (final count, how many of the drops freed the
container), `none` on a panic. -/
def dropN : Nat → Nat → Option (Nat × Nat)
  | 0, rc => some (rc, 0)
  | k + 1, rc =>
      match dropObject rc with
      | none => none
      | some (rc2, freed) =>
          match dropN k rc2 with
          | none => none
          | some (rcF, cnt) => some (rcF, cnt + (if freed then 1 else 0))

/-!
Version (src/version.rs)
-/

/-- Embedding of `Version` (src/version.rs): four `usize` fields. -/
structure Version where
  major : Nat
  minor : Nat
  release : Nat
  build : Nat
  deriving Repr, DecidableEq

/-- Embedding of `Ord for Version` (src/version.rs:94-122): the chain of
field-by-field comparisons, major first, build last. -/
def Version.cmp (a b : Version) : Ordering :=
  if a.major > b.major then Ordering.gt
  else if a.major < b.major then Ordering.lt
  else if a.minor > b.minor then Ordering.gt
  else if a.minor < b.minor then Ordering.lt
  else if a.release > b.release then Ordering.gt
  else if a.release < b.release then Ordering.lt
  else if a.build > b.build then Ordering.gt
  else if a.build < b.build then Ordering.lt
  else Ordering.eq

/-- Embedding of `PartialEq for Version` (src/version.rs:134-138):
`self.cmp(other) == Ordering::Equal`. -/
def Version.eqb (a b : Version) : Bool :=
  Version.cmp a b == Ordering.eq

/-- The spec's reading of "lexicographic over the four fields", written
from the spec's words for comparison against `Version.cmp`: `a` is
strictly below `b` when the first differing field, in priority order
major, minor, release, build, is smaller in `a`. -/
def Version.lexLt (a b : Version) : Prop :=
  a.major < b.major ∨
    (a.major = b.major ∧ (a.minor < b.minor ∨
      (a.minor = b.minor ∧ (a.release < b.release ∨
        (a.release = b.release ∧ a.build < b.build)))))

instance (a b : Version) : Decidable (Version.lexLt a b) := by
  unfold Version.lexLt
  exact inferInstance

/-!
Loader handshake (src/registration.rs)

`FreightDeclaration` (src/declaration.rs) is the fixed-layout record a
plugin exports; its `register` function pointer is modelled as an
opaque token.  The host's own `RUSTC_VERSION` and `API_VERSION`
statics are passed as explicit parameters.  The observable effect of
interest — whether the registration entry point ran — is returned as
the trace of invoked `register` tokens.
-/

/-- Embedding of `FreightDeclaration` (src/declaration.rs:38-62); the `register`
function pointer is an opaque token. -/
structure FreightDeclaration where
  rustc_version : String
  api_version : String
  freight_version : Version
  backwards_compat_version : Version
  name : String
  register : Nat
  deriving Repr, DecidableEq

/-- The part of `FreightProxy` (src/registration.rs:68-106) observable
through `load_from_declaration`: the installed freight implementor is
the token of the `register` callback that installed it, 0 standing for
the initial `EmptyFreight` placeholder. -/
structure FreightProxy where
  freight : Nat
  name : String
  version : Version
  backwards_compat_version : Version
  deriving Repr, DecidableEq

/-- Embedding of `FreightProxy::load_from_declaration_no_vcheck`
(src/registration.rs:203-234): build the proxy around the placeholder
`EmptyFreight`, then invoke `declaration.register` on it (recorded in
the trace; the callback installs the freight implementor). -/
def loadFromDeclarationNoVcheck (d : FreightDeclaration) :
    Except Error FreightProxy × List Nat :=
  (Except.ok
    { freight := d.register
      name := d.name
      version := d.freight_version
      backwards_compat_version := d.backwards_compat_version },
   [d.register])

/-- Embedding of `FreightProxy::load_from_declaration` (src/registration.rs:175-194):
reject a compiler-version mismatch, then an API-version mismatch, each
with an `ImportError` and without invoking the registration entry
point; otherwise defer to the unchecked loader. -/
def loadFromDeclaration (hostRustcVersion hostApiVersion : String)
    (d : FreightDeclaration) : Except Error FreightProxy × List Nat :=
  if d.rustc_version ≠ hostRustcVersion then
    (Except.error (Error.ImportError "Compiler version mismatch"), [])
  else if d.api_version ≠ hostApiVersion then
    (Except.error (Error.ImportError "Dusk API version mismatch"), [])
  else
    loadFromDeclarationNoVcheck d

/-!
Declared entity records (src/functions.rs, src/types.rs, src/traits.rs, src/modules.rs)

Inert payloads that the flattening algorithm merely copies around —
the boxed callable, parameter descriptors, `TypeId`s, generators and
dependency requests — are modelled as opaque numeric tokens.
-/

/-- Embedding of `Function` (src/functions.rs): the declared name, the boxed
callable (token, 0 standing for `EmptyCallable`), the declared
catalog id `fn_id`, and the inert descriptor payload. -/
structure Function where
  name : String
  callable : Nat
  fn_id : Nat
  parameters : List Nat
  return_type : Nat
  no_check_args : Bool
  dependencies : List Nat
  deriving Repr, DecidableEq

/-- Embedding of `Function::default` (src/functions.rs:211-221): the empty-name
placeholder used to pad sparse function catalogs; `return_type` is
`TypeId::of::<u8>()`, token 0 here. -/
def Function.default : Function :=
  { name := ""
    callable := 0
    fn_id := 0
    parameters := []
    return_type := 0
    no_check_args := false
    dependencies := [] }

/-- Embedding of `TraitFunction` (src/traits.rs:102-113): a trait-local id and the
function implementing the trait method. -/
structure TraitFunction where
  fn_trait_id : Nat
  function : Function
  deriving Repr, DecidableEq

/-- Embedding of `TraitImplementation` (src/traits.rs:153-161). -/
structure TraitImplementation where
  name : String
  methods : List TraitFunction
  deriving Repr, DecidableEq

/-- Embedding of `Type` (src/types.rs:35-75); named `TypeRecord` because `Type` is
reserved in Lean.  The `generator` function pointer and the
`native_id` `TypeId` are opaque tokens. -/
structure TypeRecord where
  name : String
  tp_id : Nat
  generator : Nat
  methods : List Function
  fields : List Function
  trait_implementations : List TraitImplementation
  native_id : Nat
  deriving Repr, DecidableEq

/-- Embedding of `TraitDefinition` (src/traits.rs:127-137); its trait-method
descriptor list is inert for the flattening claims and kept as
tokens. -/
structure TraitDefinition where
  name : String
  td_id : Nat
  methods : List Nat
  deriving Repr, DecidableEq

/-- Embedding of `Module` (src/modules.rs:27-53): a recursive record, so embedded
as a single-constructor inductive with explicit projections below. -/
inductive Module where
  | mk
      (name : String)
      (md_id : Nat)
      (types : List TypeRecord)
      (functions : List Function)
      (submodules : List Module)
      (trait_definitions : List TraitDefinition)
      (constants : List Function)
  deriving Repr

/-- The `name` field of a `Module`. -/
def Module.name : Module → String
  | Module.mk n _ _ _ _ _ _ => n

/-- The `md_id` field of a `Module`. -/
def Module.md_id : Module → Nat
  | Module.mk _ i _ _ _ _ _ => i

/-- The `types` field of a `Module`. -/
def Module.types : Module → List TypeRecord
  | Module.mk _ _ t _ _ _ _ => t

/-- The `functions` field of a `Module`. -/
def Module.functions : Module → List Function
  | Module.mk _ _ _ f _ _ _ => f

/-- The `submodules` field of a `Module`. -/
def Module.submodules : Module → List Module
  | Module.mk _ _ _ _ s _ _ => s

/-- The `trait_definitions` field of a `Module`. -/
def Module.trait_definitions : Module → List TraitDefinition
  | Module.mk _ _ _ _ _ d _ => d

/-- The `constants` field of a `Module`. -/
def Module.constants : Module → List Function
  | Module.mk _ _ _ _ _ _ c => c

/-- Setter for `parents.last_mut().unwrap().name = ...` — replace a module's
name, keeping every other field. -/
def Module.withName (m : Module) (n : String) : Module :=
  match m with
  | Module.mk _ i t f s d c => Module.mk n i t f s d c

/-- Embedding of `Module::default` (src/modules.rs:55-67): the empty-name
placeholder used to pad sparse module catalogs. -/
def Module.default : Module :=
  Module.mk "" 0 [] [] [] [] []

/-- Setter for `result_unsorted.last_mut().unwrap().name = ...` — replace a
function's name, keeping every other field. -/
def Function.withName (f : Function) (n : String) : Function :=
  { f with name := n }

/-!
Catalog flattening (src/freights.rs)

`Freight::get_module_list` runs an explicit-stack depth-first walk in
a `while` loop whose termination is not structurally evident (the
placeholder-overwrite branch `continue`s without popping `parents`),
so the loop is embedded with explicit fuel; `Outcome.outOfFuel` never
occurs on runs that the Rust loop finishes.  `Outcome.panicked` models
a Rust panic (`.unwrap()` on `None` / indexing an empty `Vec`).
-/

/-- Result of a flattening run: a value, a returned `Error`, a Rust
panic, or fuel exhaustion of the embedded loop. -/
inductive Outcome (α : Type) where
  | ok (value : α)
  | err (e : Error)
  | panicked
  | outOfFuel
  deriving Repr, DecidableEq

/-- One `while parents.len() > 0` loop of `Freight::get_module_list`
(src/freights.rs:577-631), embedded iteration by iteration:

* `tmp_name` is the name of the module on top of the `parents` stack;
* `*par_progress.last().unwrap()` panics when the progress stack is
  empty (reachable: the placeholder-overwrite branch pops
  `par_progress` but not `parents`);
* while unvisited submodules remain, push the next one (empty name →
  `ImportError`), qualify its name with the parent chain, advance the
  parent's progress counter and start the child's at 0;
* otherwise pop the progress counter and place the module at slot
  `md_id`: an occupied slot with a non-empty name is an `ImportError`
  ("Several modules with same id"), an occupied empty-name slot is
  overwritten (without popping `parents` — as in the source), and a
  slot beyond the current length is reached by padding with
  `Module.default` before pushing (popping `parents`). -/
def moduleLoop : Nat → List Module → List Nat → List Module →
    Outcome (List Module)
  | 0, _, _, _ => Outcome.outOfFuel
  | fuel + 1, parents, parProgress, result =>
    match parents.getLast? with
    | none => Outcome.ok result
    | some cur =>
      let tmp_name := cur.name
      match parProgress.getLast? with
      | none => Outcome.panicked
      | some p =>
        if h : p < cur.submodules.length then
          let child := cur.submodules.get ⟨p, h⟩
          if child.name = "" then
            Outcome.err (Error.ImportError "Modules can not have empty names")
          else
            moduleLoop fuel
              (parents ++ [child.withName (tmp_name ++ "::" ++ child.name)])
              (parProgress.dropLast ++ [p + 1, 0])
              result
        else
          if h2 : cur.md_id < result.length then
            if (result.get ⟨cur.md_id, h2⟩).name ≠ "" then
              Outcome.err (Error.ImportError
                ("Several modules with same id (" ++ toString cur.md_id ++ ") found"))
            else
              moduleLoop fuel parents (parProgress.dropLast)
                (result.set cur.md_id cur)
          else
            moduleLoop fuel parents.dropLast (parProgress.dropLast)
              ((result ++ List.replicate (cur.md_id - result.length) Module.default)
                ++ [cur])

/-- The `for module in top_modules` loop of `Freight::get_module_list`
(src/freights.rs:565-632): reject an empty top-level name, then run
the stack walk seeded with that module, accumulating into the shared
`result` vector. -/
def getModuleListAux (fuel : Nat) : List Module → List Module →
    Outcome (List Module)
  | [], result => Outcome.ok result
  | m :: rest, result =>
    if m.name = "" then
      Outcome.err (Error.ImportError "Modules can not have empty names")
    else
      match moduleLoop fuel [m] [0] result with
      | Outcome.ok result2 => getModuleListAux fuel rest result2
      | Outcome.err e => Outcome.err e
      | Outcome.panicked => Outcome.panicked
      | Outcome.outOfFuel => Outcome.outOfFuel

/-- Embedding of `Freight::get_module_list` (src/freights.rs:557-634) on the
declared top modules. -/
def getModuleList (fuel : Nat) (top_modules : List Module) :
    Outcome (List Module) :=
  getModuleListAux fuel top_modules []

/-- The `self.get_operator_list()` harvest of
`Freight::get_function_list` (src/freights.rs:160-169): operators are
collected first, unqualified, and must have non-empty names. -/
def harvestOperators : List Function → Except Error (List Function)
  | [] => Except.ok []
  | f :: rest =>
    if f.name = "" then
      Except.error (Error.ImportError "Operators can not have empty names")
    else do
      let tail ← harvestOperators rest
      Except.ok (f :: tail)

/-- The `module.functions` harvest (src/freights.rs:171-184): each
function name must be non-empty and is qualified as
`<module>::<name>`. -/
def harvestModuleFunctions (mod_name : String) :
    List Function → Except Error (List Function)
  | [] => Except.ok []
  | f :: rest =>
    if f.name = "" then
      Except.error (Error.ImportError "Functions can not have empty names")
    else do
      let tail ← harvestModuleFunctions mod_name rest
      Except.ok (f.withName (mod_name ++ "::" ++ f.name) :: tail)

/-- The `module.constants` harvest (src/freights.rs:185-198):
constants are functions qualified as `@<module>::<name>`. -/
def harvestModuleConstants (mod_name : String) :
    List Function → Except Error (List Function)
  | [] => Except.ok []
  | f :: rest =>
    if f.name = "" then
      Except.error (Error.ImportError "Functions can not have empty names")
    else do
      let tail ← harvestModuleConstants mod_name rest
      Except.ok (f.withName ("@" ++ mod_name ++ "::" ++ f.name) :: tail)

/-- The `def_type.methods` harvest (src/freights.rs:207-221): methods
are qualified as `<module>::<type>::<name>`. -/
def harvestTypeMethods (mod_name type_name : String) :
    List Function → Except Error (List Function)
  | [] => Except.ok []
  | f :: rest =>
    if f.name = "" then
      Except.error (Error.ImportError "Type methods can not have empty names")
    else do
      let tail ← harvestTypeMethods mod_name type_name rest
      Except.ok (f.withName (mod_name ++ "::" ++ type_name ++ "::" ++ f.name) :: tail)

/-- The `def_type.fields` harvest (src/freights.rs:222-236):
field accessors are qualified as `@<module>::<type>::<name>`. -/
def harvestTypeFields (mod_name type_name : String) :
    List Function → Except Error (List Function)
  | [] => Except.ok []
  | f :: rest =>
    if f.name = "" then
      Except.error (Error.ImportError "Type fields can not have empty names")
    else do
      let tail ← harvestTypeFields mod_name type_name rest
      Except.ok (f.withName ("@" ++ mod_name ++ "::" ++ type_name ++ "::" ++ f.name) :: tail)

/-- The `def_trt.methods` harvest over one trait implementation
(src/freights.rs:238-252): the implementing functions are qualified as
`<module>::<type>::<name>`. -/
def harvestTraitImplMethods (mod_name type_name : String) :
    List TraitFunction → Except Error (List Function)
  | [] => Except.ok []
  | tm :: rest =>
    if tm.function.name = "" then
      Except.error (Error.ImportError "Type methods can not have empty names")
    else do
      let tail ← harvestTraitImplMethods mod_name type_name rest
      Except.ok
        (tm.function.withName
          (mod_name ++ "::" ++ type_name ++ "::" ++ tm.function.name) :: tail)

/-- The `def_type.trait_implementations` harvest
(src/freights.rs:237-253). -/
def harvestTraitImpls (mod_name type_name : String) :
    List TraitImplementation → Except Error (List Function)
  | [] => Except.ok []
  | ti :: rest => do
    let here ← harvestTraitImplMethods mod_name type_name ti.methods
    let tail ← harvestTraitImpls mod_name type_name rest
    Except.ok (here ++ tail)

/-- The `module.types` harvest (src/freights.rs:199-254): each type
name must be non-empty; its methods, field accessors and
trait-implementation methods all funnel into the function list. -/
def harvestTypes (mod_name : String) :
    List TypeRecord → Except Error (List Function)
  | [] => Except.ok []
  | t :: rest =>
    if t.name = "" then
      Except.error (Error.ImportError "Types can not have empty names")
    else do
      let ms ← harvestTypeMethods mod_name t.name t.methods
      let fs ← harvestTypeFields mod_name t.name t.fields
      let ts ← harvestTraitImpls mod_name t.name t.trait_implementations
      let tail ← harvestTypes mod_name rest
      Except.ok (ms ++ fs ++ ts ++ tail)

/-- The `for module in all_modules` harvest of
`Freight::get_function_list` (src/freights.rs:170-255): per module,
its functions, then its constants, then its types' contributions, in
declaration order. -/
def harvestModules : List Module → Except Error (List Function)
  | [] => Except.ok []
  | m :: rest => do
    let fs ← harvestModuleFunctions m.name m.functions
    let cs ← harvestModuleConstants m.name m.constants
    let ts ← harvestTypes m.name m.types
    let tail ← harvestModules rest
    Except.ok (fs ++ cs ++ ts ++ tail)

/-- The placement loop of `Freight::get_function_list`
(src/freights.rs:257-275): for each harvested function in order, if
its `fn_id` falls inside the current catalog and the *incoming*
function's name is non-empty — which every harvested function's is —
return the duplicate-id `ImportError`; an incoming empty name would
overwrite the slot; an id beyond the current length pads with
`Function.default` placeholders and appends. -/
def placeFunctions : List Function → List Function →
    Except Error (List Function)
  | [], result => Except.ok result
  | f :: rest, result =>
    if f.fn_id < result.length then
      if f.name ≠ "" then
        Except.error (Error.ImportError
          ("Several functions with same id (" ++ toString f.fn_id ++ ") found"))
      else
        placeFunctions rest (result.set f.fn_id f)
    else
      placeFunctions rest
        ((result ++ List.replicate (f.fn_id - result.length) Function.default)
          ++ [f])

/-- Embedding of `Freight::get_function_list` (src/freights.rs:147-278): flatten
the module tree, harvest operators then per-module entities into
`result_unsorted`, and place each at its declared id. -/
def getFunctionList (fuel : Nat) (top_modules : List Module)
    (operators : List Function) : Outcome (List Function) :=
  match getModuleList fuel top_modules with
  | Outcome.ok all_modules =>
    match harvestOperators operators with
    | Except.error e => Outcome.err e
    | Except.ok ops =>
      match harvestModules all_modules with
      | Except.error e => Outcome.err e
      | Except.ok entities =>
        match placeFunctions (ops ++ entities) [] with
        | Except.error e => Outcome.err e
        | Except.ok result => Outcome.ok result
  | Outcome.err e => Outcome.err e
  | Outcome.panicked => Outcome.panicked
  | Outcome.outOfFuel => Outcome.outOfFuel

/-!
Supporting lemmas
-/

/-- The modulus constant as a numeral. -/
theorem USIZE_MOD_eq : USIZE_MOD = 18446744073709551616 := by
  norm_num [USIZE_MOD]

/-- The saturation cap as a numeral. -/
theorem ISIZE_MAX_eq : ISIZE_MAX = 9223372036854775807 := by
  norm_num [ISIZE_MAX]

/-- Running `k` clones from a count that stays under the cap adds `k`. -/
theorem cloneRcN_eq (k : Nat) : ∀ rc : Nat, rc + k ≤ ISIZE_MAX →
    cloneRcN k rc = some (rc + k) := by
  induction k with
  | zero => intro rc _; simp [cloneRcN]
  | succ n ih =>
    intro rc h
    have h1 : ¬ rc ≥ ISIZE_MAX := by omega
    have h2 : (rc + 1) % USIZE_MOD = rc + 1 := by
      apply Nat.mod_eq_of_lt
      rw [USIZE_MOD_eq]
      rw [ISIZE_MAX_eq] at h
      omega
    rw [cloneRcN, incref]
    simp only [h1, if_false, h2]
    rw [ih (rc + 1) (by omega)]
    congr 1
    omega

/-- A single drop from a positive in-range count decrements it and
frees exactly at pre-decrement count 1. -/
theorem dropObject_eq (rc : Nat) (h0 : 0 < rc) (h1 : rc < USIZE_MOD) :
    dropObject rc = some (rc - 1, rc == 1) := by
  have key : (rc + (USIZE_MOD - 1)) % USIZE_MOD = rc - 1 := by
    rw [USIZE_MOD_eq]
    rw [USIZE_MOD_eq] at h1
    omega
  simp [dropObject, decref, key]

/-- Fewer drops than the current count free nothing. -/
theorem dropN_of_lt (k : Nat) : ∀ rc : Nat, k < rc → rc < USIZE_MOD →
    dropN k rc = some (rc - k, 0) := by
  induction k with
  | zero => intro rc _ _; simp [dropN]
  | succ n ih =>
    intro rc hk hm
    rw [dropN, dropObject_eq rc (by omega) hm]
    have hne : (rc == 1) = false := by
      simp only [beq_eq_false_iff_ne, ne_eq]
      omega
    rw [hne]
    dsimp only
    rw [ih (rc - 1) (by omega) (by omega)]
    simp only [if_neg Bool.false_ne_true, Nat.add_zero, Option.some.injEq,
      Prod.mk.injEq, and_true]
    omega

/-- Dropping exactly the current (positive, in-range) count frees the
container exactly once and ends at count 0. -/
theorem dropN_self (rc : Nat) (h0 : 0 < rc) (h1 : rc < USIZE_MOD) :
    dropN rc rc = some (0, 1) := by
  induction rc with
  | zero => omega
  | succ r ih =>
    rw [dropN, dropObject_eq (r + 1) (by omega) h1]
    simp only [Nat.add_sub_cancel]
    cases r with
    | zero => simp [dropN]
    | succ r2 =>
      have : (r2 + 1 + 1 == 1) = false := by
        simp only [beq_eq_false_iff_ne, ne_eq]
        omega
      rw [this, ih (by omega) (by omega)]
      simp

/-- Transitivity of the spec-side lexicographic order. -/
theorem Version.lexLt_trans (a b c : Version) :
    Version.lexLt a b → Version.lexLt b c → Version.lexLt a c := by
  unfold Version.lexLt
  omega

/-- The source comparison returns `lt` exactly on the spec-side
lexicographic order. -/
theorem Version.cmp_lt_iff (a b : Version) :
    Version.cmp a b = Ordering.lt ↔ Version.lexLt a b := by
  unfold Version.cmp Version.lexLt
  split_ifs <;> simp_all <;> omega

/-- The source comparison returns `eq` exactly on field-wise equality. -/
theorem Version.cmp_eq_iff (a b : Version) :
    Version.cmp a b = Ordering.eq ↔
      (a.major = b.major ∧ a.minor = b.minor ∧
        a.release = b.release ∧ a.build = b.build) := by
  unfold Version.cmp
  split_ifs <;> simp_all <;> omega

/-- The source comparison returns `gt` exactly on the reversed
spec-side lexicographic order. -/
theorem Version.cmp_gt_iff (a b : Version) :
    Version.cmp a b = Ordering.gt ↔ Version.lexLt b a := by
  unfold Version.cmp Version.lexLt
  split_ifs <;> simp_all <;> omega

/-!
Claim theorems
-/

/-- C2: whenever the declaration's compiler-version string or
API-version string differs from the loader's own,
`load_from_declaration` returns an `ImportError`, and the
declaration's registration entry point is never invoked (the trace of
invoked registration callbacks is empty). -/
theorem version_mismatch_blocks_registration
    (hostRustcVersion hostApiVersion : String) (d : FreightDeclaration)
    (h : d.rustc_version ≠ hostRustcVersion ∨ d.api_version ≠ hostApiVersion) :
    (∃ msg, (loadFromDeclaration hostRustcVersion hostApiVersion d).fst =
        Except.error (Error.ImportError msg)) ∧
      (loadFromDeclaration hostRustcVersion hostApiVersion d).snd = [] := by
  by_cases h1 : d.rustc_version = hostRustcVersion
  · have h2 : d.api_version ≠ hostApiVersion := by
      rcases h with h | h
      · exact absurd h1 h
      · exact h
    refine ⟨⟨"Dusk API version mismatch", ?_⟩, ?_⟩ <;>
      simp [loadFromDeclaration, h1, h2]
  · refine ⟨⟨"Compiler version mismatch", ?_⟩, ?_⟩ <;>
      simp [loadFromDeclaration, h1]

/-- A declaration whose compiler-version string does not match the
host used in the witness below. -/
def declMismatch : FreightDeclaration :=
  { rustc_version := "1.50.0"
    api_version := "0.1.0"
    freight_version := { major := 0, minor := 1, release := 0, build := 0 }
    backwards_compat_version := { major := 0, minor := 1, release := 0, build := 0 }
    name := "plug"
    register := 7 }

/-- Witness for C2 at a concrete declaration and host identity. -/
theorem version_mismatch_blocks_registration_witness :
    (declMismatch.rustc_version ≠ "1.51.0" ∨ declMismatch.api_version ≠ "0.1.0") ∧
      ((∃ msg, (loadFromDeclaration "1.51.0" "0.1.0" declMismatch).fst =
          Except.error (Error.ImportError msg)) ∧
        (loadFromDeclaration "1.51.0" "0.1.0" declMismatch).snd = []) :=
  ⟨Or.inl (by decide),
    version_mismatch_blocks_registration "1.51.0" "0.1.0" declMismatch
      (Or.inl (by decide))⟩

/-- C4 counterexample: at the even lock word `2^63` — which is neither
1 nor an odd value, so the claim requires a successful shared acquire
adding 2 — `try_lock` instead returns an `OverflowError` and leaves
the word unchanged. -/
theorem try_lock_overflow_counterexample :
    (2 : Nat) ^ 63 ≠ 1 ∧ (2 : Nat) ^ 63 % 2 = 0 ∧
      tryLock ((2 : Nat) ^ 63) =
        (Except.error (Error.OverflowError "Lock counter overflow"), (2 : Nat) ^ 63) ∧
      tryLock ((2 : Nat) ^ 63) ≠ (Except.ok true, (2 : Nat) ^ 63 + 2) := by
  refine ⟨by norm_num, by norm_num, ?_, ?_⟩
  · rw [tryLock, if_pos (by rw [ISIZE_MAX_eq]; norm_num)]
  · rw [tryLock, if_pos (by rw [ISIZE_MAX_eq]; norm_num)]
    simp

/-- C4 amended: `try_lock_ex` succeeds exactly at lock word 0, setting
it to 1, and reports failure, unchanged word, at every other value;
`try_lock` returns `OverflowError` at or above `isize::MAX`, reports
failure exactly at 1, returns `RuntimeError` at invalid odd values
other than 1 below the cap, and otherwise succeeds by adding 2. -/
theorem try_lock_cases (lck : Nat) :
    (tryLockEx lck = (Except.ok true, 1) ↔ lck = 0) ∧
      (tryLockEx lck = (Except.ok false, lck) ↔ lck ≠ 0) ∧
      (tryLock lck =
          (Except.error (Error.OverflowError "Lock counter overflow"), lck) ↔
        ISIZE_MAX ≤ lck) ∧
      (tryLock lck = (Except.ok false, lck) ↔ lck = 1) ∧
      (tryLock lck =
          (Except.error (Error.RuntimeError "Invalid lock value"), lck) ↔
        (lck % 2 = 1 ∧ lck ≠ 1 ∧ lck < ISIZE_MAX)) ∧
      (tryLock lck = (Except.ok true, lck + 2) ↔
        (lck % 2 = 0 ∧ lck < ISIZE_MAX)) := by
  unfold tryLock tryLockEx
  rw [ISIZE_MAX_eq]
  split_ifs <;> simp_all <;> omega

/-- C5: `unlock` subtracts 1 at lock word 1, subtracts 2 at any
positive even word, and returns a `RuntimeError`, leaving the word
unchanged, at 0 and at every invalid odd value other than 1; every
non-error path is one of those two subtractions. -/
theorem unlock_cases (lck : Nat) :
    (unlock lck =
        (Except.error
          (Error.RuntimeError "Trying to unlock an unlocked mutex lock"), lck) ↔
      lck = 0) ∧
      (unlock lck = (Except.ok (), lck - 1) ↔ lck = 1) ∧
      (unlock lck = (Except.ok (), lck - 2) ↔
        ((lck % 2 = 0 ∧ lck ≠ 0) ∨ lck = 1)) ∧
      (unlock lck =
          (Except.error (Error.RuntimeError "Invalid lock value"), lck) ↔
        (lck % 2 = 1 ∧ lck ≠ 1)) ∧
      ((unlock lck).fst = Except.ok () ∨ (unlock lck).snd = lck) := by
  unfold unlock
  split_ifs <;> simp_all <;> omega

/-- C6: a drop decrements the reference count by one and frees the
container exactly when the pre-decrement count was 1; hence, starting
from the initial count 1, `N` clones raise the count to `N + 1`, the
first `k ≤ N` of the subsequent drops free nothing and leave count
`N + 1 - k`, and running all `N + 1` drops frees the container exactly
once, at the final drop. -/
theorem refcount_last_drop_frees (N k rc : Nat) (hN : N < ISIZE_MAX)
    (hk : k ≤ N) (h0 : 0 < rc) (h1 : rc < USIZE_MOD) :
    cloneRcN N 1 = some (N + 1) ∧
      dropN k (N + 1) = some (N + 1 - k, 0) ∧
      dropN (N + 1) (N + 1) = some (0, 1) ∧
      dropObject rc = some (rc - 1, rc == 1) := by
  have hmod : N + 1 < USIZE_MOD := by
    rw [USIZE_MOD_eq]
    rw [ISIZE_MAX_eq] at hN
    omega
  refine ⟨?_, ?_, ?_, ?_⟩
  · have := cloneRcN_eq N 1 (by omega)
    rw [this]
    congr 1
    omega
  · exact dropN_of_lt k (N + 1) (by omega) hmod
  · exact dropN_self (N + 1) (by omega) hmod
  · exact dropObject_eq rc h0 h1

/-- Witness for C6 at `N = 2`, `k = 1`, `rc = 1`. -/
theorem refcount_last_drop_frees_witness :
    (2 < ISIZE_MAX ∧ 1 ≤ 2 ∧ 0 < 1 ∧ 1 < USIZE_MOD) ∧
      (cloneRcN 2 1 = some 3 ∧ dropN 1 3 = some (2, 0) ∧
        dropN 3 3 = some (0, 1) ∧ dropObject 1 = some (0, 1 == 1)) :=
  ⟨⟨by decide, by decide, by decide, by decide⟩,
    refcount_last_drop_frees 2 1 1 (by decide) (by decide) (by decide)
      (by decide)⟩

/-- C9: `incref` always advances the counter to its old value plus one
(modulo the word size) — in particular the counter never stays
unchanged, not even on the error path — and it reports
`OverflowError` exactly when the pre-increment value is at or above
`isize::MAX`, returning the pre-increment value otherwise. -/
theorem incref_increments_even_on_overflow (rc : Nat) (h : rc < USIZE_MOD) :
    (incref rc).snd = (rc + 1) % USIZE_MOD ∧
      (incref rc).snd ≠ rc ∧
      ((incref rc).fst =
          Except.error (Error.OverflowError "Reference counter overflow") ↔
        ISIZE_MAX ≤ rc) ∧
      ((incref rc).fst = Except.ok rc ↔ rc < ISIZE_MAX) := by
  have hsnd : (rc + 1) % USIZE_MOD ≠ rc := by
    rw [USIZE_MOD_eq]
    rw [USIZE_MOD_eq] at h
    omega
  simp only [incref]
  split_ifs with hge <;> simp_all

/-- Witness for C9 at `rc = 2^63`, on the error path: the counter is
nevertheless advanced. -/
theorem incref_increments_even_on_overflow_witness :
    (2 : Nat) ^ 63 < USIZE_MOD ∧
      ((incref (2 ^ 63)).snd = (2 ^ 63 + 1) % USIZE_MOD ∧
        (incref (2 ^ 63)).snd ≠ 2 ^ 63 ∧
        ((incref (2 ^ 63)).fst =
            Except.error (Error.OverflowError "Reference counter overflow") ↔
          ISIZE_MAX ≤ 2 ^ 63) ∧
        ((incref (2 ^ 63)).fst = Except.ok (2 ^ 63) ↔ 2 ^ 63 < ISIZE_MAX)) :=
  ⟨by rw [USIZE_MOD_eq]; norm_num,
    incref_increments_even_on_overflow (2 ^ 63)
      (by rw [USIZE_MOD_eq]; norm_num)⟩

/-- C10: `Clone for Object` is infallible as a value — whenever
`incref` succeeds (count below `isize::MAX`) it yields a second handle
with the same container pointer, type descriptor and flags, and when
the count is at or above `isize::MAX` it panics (`none`) by unwrapping
the `OverflowError` instead of propagating it. -/
theorem clone_object_shares_container (o : Object) (rc : Nat) :
    (rc < ISIZE_MAX → cloneObject o rc = some (o, rc + 1)) ∧
      (ISIZE_MAX ≤ rc → cloneObject o rc = none) := by
  constructor
  · intro hlt
    have h1 : ¬ rc ≥ ISIZE_MAX := by omega
    have h2 : (rc + 1) % USIZE_MOD = rc + 1 := by
      apply Nat.mod_eq_of_lt
      rw [USIZE_MOD_eq]
      rw [ISIZE_MAX_eq] at hlt
      omega
    simp [cloneObject, incref, h1, h2]
  · intro hge
    have h1 : rc ≥ ISIZE_MAX := hge
    simp [cloneObject, incref, h1]

/-- Witness for C10 at a concrete object and count 5. -/
theorem clone_object_shares_container_witness :
    ((5 : Nat) < ISIZE_MAX →
        cloneObject { data := 1, data_type := 2, flags := 3 } 5 =
          some ({ data := 1, data_type := 2, flags := 3 }, 6)) ∧
      (ISIZE_MAX ≤ (5 : Nat) →
        cloneObject { data := 1, data_type := 2, flags := 3 } 5 = none) :=
  clone_object_shares_container { data := 1, data_type := 2, flags := 3 } 5

/-- Evaluation of the derived `BEq Ordering` test against `eq`. -/
theorem ordering_beq_eq (o : Ordering) :
    (o == Ordering.eq) = true ↔ o = Ordering.eq := by
  cases o <;> decide

/-- C8: the source comparison is lexicographic over major, minor,
release, build in that priority (it returns `lt` exactly on the
spec-side lexicographic order and `gt` exactly on its reverse), two
versions compare equal exactly when all four fields match, the order
is transitive, and for every pair exactly one of less-than, equal,
greater-than holds. -/
theorem version_cmp_strict_total_order (a b c : Version) :
    (Version.cmp a b = Ordering.eq ↔
        (a.major = b.major ∧ a.minor = b.minor ∧
          a.release = b.release ∧ a.build = b.build)) ∧
      (Version.eqb a b = true ↔ a = b) ∧
      (Version.cmp a b = Ordering.lt ↔ Version.lexLt a b) ∧
      (Version.cmp a b = Ordering.gt ↔ Version.lexLt b a) ∧
      (Version.cmp a b = Ordering.lt → Version.cmp b c = Ordering.lt →
        Version.cmp a c = Ordering.lt) ∧
      (Version.cmp a b = Ordering.lt ∧ Version.cmp a b ≠ Ordering.eq ∧
          Version.cmp a b ≠ Ordering.gt ∨
        Version.cmp a b = Ordering.eq ∧ Version.cmp a b ≠ Ordering.lt ∧
          Version.cmp a b ≠ Ordering.gt ∨
        Version.cmp a b = Ordering.gt ∧ Version.cmp a b ≠ Ordering.lt ∧
          Version.cmp a b ≠ Ordering.eq) := by
  refine ⟨Version.cmp_eq_iff a b, ?_, Version.cmp_lt_iff a b,
    Version.cmp_gt_iff a b, ?_, ?_⟩
  · rw [Version.eqb, ordering_beq_eq, Version.cmp_eq_iff]
    cases a
    cases b
    simp [Version.mk.injEq]
  · intro hab hbc
    rw [Version.cmp_lt_iff] at hab hbc ⊢
    exact Version.lexLt_trans a b c hab hbc
  · cases e : Version.cmp a b
    · exact Or.inl ⟨rfl, by simp [e], by simp [e]⟩
    · exact Or.inr (Or.inl ⟨rfl, by simp [e], by simp [e]⟩)
    · exact Or.inr (Or.inr ⟨rfl, by simp [e], by simp [e]⟩)

/-- Witness for C8 at concrete versions 1.2.3.4, 1.2.5.0, 2.0.0.0. -/
theorem version_cmp_strict_total_order_witness :
    (Version.cmp { major := 1, minor := 2, release := 3, build := 4 }
          { major := 1, minor := 2, release := 5, build := 0 } =
        Ordering.lt →
      Version.cmp { major := 1, minor := 2, release := 5, build := 0 }
          { major := 2, minor := 0, release := 0, build := 0 } =
        Ordering.lt →
      Version.cmp { major := 1, minor := 2, release := 3, build := 4 }
          { major := 2, minor := 0, release := 0, build := 0 } =
        Ordering.lt) ∧
      Version.cmp { major := 1, minor := 2, release := 3, build := 4 }
          { major := 2, minor := 0, release := 0, build := 0 } =
        Ordering.lt :=
  ⟨(version_cmp_strict_total_order
      { major := 1, minor := 2, release := 3, build := 4 }
      { major := 1, minor := 2, release := 5, build := 0 }
      { major := 2, minor := 0, release := 0, build := 0 }).2.2.2.2.1,
    (version_cmp_strict_total_order
      { major := 1, minor := 2, release := 3, build := 4 }
      { major := 1, minor := 2, release := 5, build := 0 }
      { major := 2, minor := 0, release := 0, build := 0 }).2.2.2.2.1
      (by decide) (by decide)⟩

/-!
Concrete declared trees used to settle the flattening claims
-/

/-- Fixture: a function declared with id 1, name "a". -/
def fnA : Function := { Function.default with name := "a", fn_id := 1 }

/-- Fixture: a function declared with id 0, name "b". -/
def fnB : Function := { Function.default with name := "b", fn_id := 0 }

/-- Fixture: a module declaring ids 1 then 0 among its functions. -/
def modAB : Module := Module.mk "m" 0 [] [fnA, fnB] [] [] []

/-- Fixture: a function declared with id 0, name "f". -/
def fnF : Function := { Function.default with name := "f", fn_id := 0 }

/-- Fixture: a function declared with id 3, name "g". -/
def fnG : Function := { Function.default with name := "g", fn_id := 3 }

/-- Fixture: a module declaring functions with ids {0, 3}, the id-0
one first. -/
def modFG : Module := Module.mk "m" 0 [] [fnF, fnG] [] [] []

/-- Fixture: the same two functions declared in the other order, the
id-3 one first. -/
def modGF : Module := Module.mk "m" 0 [] [fnG, fnF] [] [] []

/-- Fixture: a submodule with id 1 holding the id-0 function "f". -/
def subS1 : Module := Module.mk "s" 1 [] [fnF] [] [] []

/-- Fixture: a top module with id 0 whose only submodule is `subS1`. -/
def topM0 : Module := Module.mk "m" 0 [] [] [subS1] [] []

/-- Fixture: a submodule with id 0 holding the id-0 function "f". -/
def subS0 : Module := Module.mk "s" 0 [] [fnF] [] [] []

/-- Fixture: a top module with id 1 whose only submodule is `subS0`. -/
def topM1 : Module := Module.mk "m" 1 [] [] [subS0] [] []

/-- C1: the duplicate-id check of `get_function_list` tests the
*incoming* function's name rather than the occupied slot's, so placing
an entity into a slot that holds an empty-name placeholder is rejected
with the duplicate-id `ImportError` instead of succeeding: with
functions declared at ids 1 then 0, the first placement leaves an
empty-name placeholder in slot 0, and the second placement — into that
placeholder slot — errors, as does the whole flattening. -/
theorem placeholder_slot_placement_rejected :
    harvestModules [modAB] =
      Except.ok [fnA.withName "m::a", fnB.withName "m::b"] ∧
      placeFunctions [fnA.withName "m::a"] [] =
        Except.ok [Function.default, fnA.withName "m::a"] ∧
      Function.default.name = "" ∧
      (fnB.withName "m::b").fn_id = 0 ∧
      placeFunctions [fnA.withName "m::a", fnB.withName "m::b"] [] =
        Except.error
          (Error.ImportError "Several functions with same id (0) found") ∧
      getFunctionList 16 [modAB] [] =
        Outcome.err
          (Error.ImportError "Several functions with same id (0) found") := by
  refine ⟨rfl, rfl, rfl, rfl, rfl, rfl⟩

/-- C3: with the two functions of ids {0, 3} declared id-0-first,
flattening succeeds and yields the claimed catalog of length 4 with
empty-name placeholders at slots 1 and 2; but with the same two
functions declared id-3-first, flattening fails with the duplicate-id
`ImportError` instead of succeeding, refuting the claim's "in either
declaration order". -/
theorem sparse_padding_order_dependence :
    getFunctionList 16 [modFG] [] =
      Outcome.ok [fnF.withName "m::f", Function.default, Function.default,
        fnG.withName "m::g"] ∧
      (fnF.withName "m::f").fn_id = 0 ∧
      (fnG.withName "m::g").fn_id = 3 ∧
      Function.default.name = "" ∧
      getFunctionList 16 [modGF] [] =
        Outcome.err
          (Error.ImportError "Several functions with same id (0) found") := by
  refine ⟨rfl, rfl, rfl, rfl, rfl⟩

/-- C7: for the tree of one top module "m" containing one submodule
"s" containing the single function "f" with id 0, flattening reaches
the claimed one-entry catalog ["m::s::f"] when the module ids are
top 1 / submodule 0 — but with the natural assignment top 0 /
submodule 1 the module walk panics (the placeholder-overwrite branch
pops the progress stack without popping the module stack), so the
claim fails for that declared tree. -/
theorem nested_module_function_qualification :
    getModuleList 32 [topM0] = Outcome.panicked ∧
      getFunctionList 32 [topM0] [] = Outcome.panicked ∧
      getFunctionList 32 [topM1] [] =
        Outcome.ok [fnF.withName "m::s::f"] := by
  refine ⟨rfl, rfl, rfl⟩

end DuskApi
